import Mathlib

/-!
Verification development for the loan-chatbot repository.

Shallow embedding of the conversation orchestrator (agents/master_agent.py),
the stage machines (agents/sales_agent.py, agents/verification_agent.py), the
underwriting engine (agents/underwriting_agent.py) and the issuance step
(agents/sanction_generator.py).

Modelling conventions:
* Python floats are modelled by exact rationals extended with the special
  values nan, inf and -inf (`PyFloat`); decimal-to-binary rounding of the
  float representation is not modelled, but the comparison semantics of the
  special values (every comparison with nan is false) is.
* Python `round(x, k)` is round-half-to-even, modelled exactly on rationals.
* Chat message text is modelled by identity (a tag plus the numeric payloads
  interpolated into the f-string) rather than by rendered text; rendering is
  presentation-layer behaviour with no logic in it.
* External collaborators (customer lookup, offer lookup, document issuance,
  the uploaded file name) are oracle parameters of the orchestrator step.
  A throwing issuance call is modelled by `Except.error` carrying the session
  as already mutated in place before the raise, matching Python dict-mutation
  semantics.
-/

/-- Round-half-to-even to an integer, the semantics of Python `round`. -/
def pyRound (x : ℚ) : ℤ :=
  if Int.fract x < 1/2 then ⌊x⌋
  else if 1/2 < Int.fract x then ⌊x⌋ + 1
  else if ⌊x⌋ % 2 = 0 then ⌊x⌋ else ⌊x⌋ + 1

/-- Python `round(x, 2)`. -/
def round2 (x : ℚ) : ℚ := (pyRound (100 * x) : ℚ) / 100

/-- Python `round(x, 0)` (value as a rational; Python returns a float). -/
def round0 (x : ℚ) : ℚ := (pyRound x : ℚ)

theorem pyRound_le (x : ℚ) : (pyRound x : ℚ) ≤ x + 1/2 := by
  have hfl : (⌊x⌋ : ℚ) ≤ x := Int.floor_le x
  have hfr : Int.fract x = x - ⌊x⌋ := (Int.self_sub_floor x).symm
  unfold pyRound
  split_ifs with h1 h2 h3 <;> push_cast <;> linarith

theorem pyRound_ge (x : ℚ) : x - 1/2 ≤ (pyRound x : ℚ) := by
  have hfl : x < ⌊x⌋ + 1 := Int.lt_floor_add_one x
  have hfr : Int.fract x = x - ⌊x⌋ := (Int.self_sub_floor x).symm
  unfold pyRound
  split_ifs with h1 h2 h3 <;> push_cast <;> linarith

theorem pyRound_mono {x y : ℚ} (hxy : x ≤ y) : pyRound x ≤ pyRound y := by
  have hfx : Int.fract x = x - ⌊x⌋ := (Int.self_sub_floor x).symm
  have hfy : Int.fract y = y - ⌊y⌋ := (Int.self_sub_floor y).symm
  have hfl : ⌊x⌋ ≤ ⌊y⌋ := Int.floor_le_floor hxy
  rcases lt_or_eq_of_le hfl with hlt | heq
  · have h1 : pyRound x ≤ ⌊x⌋ + 1 := by
      unfold pyRound; split_ifs <;> omega
    have h2 : ⌊y⌋ ≤ pyRound y := by
      unfold pyRound; split_ifs <;> omega
    omega
  · have hfr : Int.fract x ≤ Int.fract y := by
      rw [hfx, hfy, heq]; linarith
    unfold pyRound
    rw [heq]
    split_ifs <;> first | omega | linarith

theorem round2_le (x : ℚ) : round2 x ≤ x + 1/200 := by
  have h := pyRound_le (100 * x)
  unfold round2; linarith

theorem round2_ge (x : ℚ) : x - 1/200 ≤ round2 x := by
  have h := pyRound_ge (100 * x)
  unfold round2; linarith

theorem round2_mono {x y : ℚ} (hxy : x ≤ y) : round2 x ≤ round2 y := by
  have h := pyRound_mono (show 100 * x ≤ 100 * y by linarith)
  unfold round2
  have : (pyRound (100 * x) : ℚ) ≤ (pyRound (100 * y) : ℚ) := by exact_mod_cast h
  linarith

theorem round0_sub_abs (x : ℚ) : |round0 x - x| ≤ 1/2 := by
  have h1 := pyRound_le x
  have h2 := pyRound_ge x
  rw [abs_le]; unfold round0; constructor <;> linarith

/-- Python float values: an exact rational, or one of the IEEE specials.
The decimal-literal-to-binary rounding of real floats is not modelled;
all claims here depend only on exact values and on the special-value
comparison semantics. -/
inductive PyFloat where
  | finite (val : ℚ)
  | nan
  | inf
  | ninf
deriving DecidableEq, Repr

/-- Python `x < c` for a float `x` and an exact constant `c`
(every comparison involving nan is false). -/
def pyLtF (x : PyFloat) (c : ℚ) : Bool :=
  match x with
  | .finite a => decide (a < c)
  | .nan => false
  | .inf => false
  | .ninf => true

/-- Python `x > c` for a float `x` and an exact constant `c`. -/
def pyGtF (x : PyFloat) (c : ℚ) : Bool :=
  match x with
  | .finite a => decide (c < a)
  | .nan => false
  | .inf => true
  | .ninf => false

/-- Python `x <= c` for a float `x` and an exact constant `c`. -/
def pyLeF (x : PyFloat) (c : ℚ) : Bool :=
  match x with
  | .finite a => decide (a ≤ c)
  | .nan => false
  | .inf => false
  | .ninf => true

/-- Python whitespace characters stripped by `str.strip()` (ASCII set). -/
def pyWhitespace (c : Char) : Bool :=
  c == ' ' || c == '\t' || c == '\n' || c == '\x0d' || c == '\x0b' || c == '\x0c'

/-- Python `str.strip()`. -/
def pyStrip (s : String) : String :=
  ⟨((s.data.dropWhile pyWhitespace).reverse.dropWhile pyWhitespace).reverse⟩

/-- Python `str.lower()` (ASCII case mapping). -/
def pyLower (s : String) : String :=
  ⟨s.data.map Char.toLower⟩

/-- Python `str.replace(c, "")` for a single-character pattern: every
occurrence is removed. -/
def pyRemoveAll (c : Char) (s : String) : String :=
  ⟨s.data.filter (fun d => d != c)⟩

/-- Python `str.isdigit()` restricted to ASCII digits. -/
def pyIsDigits (s : String) : Bool :=
  s.data.all Char.isDigit

/-- Optional leading sign of a numeric literal: returns (isNegative, rest). -/
def parseSign : List Char → Bool × List Char
  | '+' :: rest => (false, rest)
  | '-' :: rest => (true, rest)
  | rest => (false, rest)

/-- A valid digit run per the Python numeric grammar: nonempty, digits with
optional single underscores strictly between digits. -/
def validRun (l : List Char) : Bool :=
  !l.isEmpty &&
  l.all (fun c => c.isDigit || c == '_') &&
  l.head? != some '_' &&
  l.getLast? != some '_' &&
  (l.zip l.tail).all (fun p => !(p.1 == '_' && p.2 == '_'))

/-- Numeric value of a digit list (most significant first). -/
def digitsVal (l : List Char) : ℕ :=
  l.foldl (fun a c => 10 * a + (c.toNat - 48)) 0

/-- Value of a digit run, ignoring the grouping underscores. -/
def runVal (l : List Char) : ℕ :=
  digitsVal (l.filter (fun c => c != '_'))

/-- Split a character list at the first character satisfying `p`; the second
component is `none` when no such character occurs. -/
def splitAtChar (p : Char → Bool) : List Char → List Char × Option (List Char)
  | [] => ([], none)
  | c :: rest =>
    if p c then ([], some rest)
    else
      let q := splitAtChar p rest
      (c :: q.1, q.2)

/-- Python `int(s)` on a string: strip whitespace, optional sign, digit run
with underscore grouping; `none` models a raised ValueError. -/
def parseIntPy (s : String) : Option ℤ :=
  let l := (pyStrip s).data
  let sg := parseSign l
  if validRun sg.2 then
    some (if sg.1 then -(runVal sg.2 : ℤ) else (runVal sg.2 : ℤ))
  else none

/-- Python `float(s)` on a string: strip whitespace, optional sign, then
inf/infinity/nan (case-insensitive) or mantissa with optional fraction and
exponent; values are exact rationals (`PyFloat.finite`).
Returns `none` for a raised ValueError. -/
def parsePyFloat (s : String) : Option PyFloat :=
  let l := (pyStrip s).data
  let sg := parseSign l
  let low := sg.2.map Char.toLower
  if low = "inf".data || low = "infinity".data then
    some (if sg.1 then .ninf else .inf)
  else if low = "nan".data then
    some .nan
  else
    let me := splitAtChar (fun c => c == 'e' || c == 'E') sg.2
    let ifr := splitAtChar (fun c => c == '.') me.1
    let ipart := ifr.1
    let fpart := (ifr.2).getD []
    let mantOK :=
      (validRun ipart && (fpart.isEmpty || validRun fpart)) ||
      (ipart.isEmpty && validRun fpart)
    let expVal : Option ℤ :=
      match me.2 with
      | none => some 0
      | some el =>
        let esg := parseSign el
        if validRun esg.2 then
          some (if esg.1 then -(runVal esg.2 : ℤ) else (runVal esg.2 : ℤ))
        else none
    match expVal with
    | none => none
    | some e =>
      if mantOK then
        let fd := fpart.filter (fun c => c != '_')
        let mantV : ℚ := (runVal ipart : ℚ) + (digitsVal fd : ℚ) / (10 : ℚ) ^ fd.length
        let v : ℚ := mantV * (10 : ℚ) ^ e
        some (.finite (if sg.1 then -v else v))
      else none

/-- EMI (amortized monthly payment) formula of `calculate_emi` in
agents/sales_agent.py and agents/underwriting_agent.py (identical copies):
zero rate gives the unrounded straight-line quotient, otherwise the
amortization formula rounded to 2 decimal places. -/
def calculate_emi (principal annual_rate : ℚ) (tenure_months : ℤ) : ℚ :=
  if annual_rate = 0 then principal / (tenure_months : ℚ)
  else
    let monthly_rate := annual_rate / (12 * 100)
    round2 (principal * monthly_rate * ((1 + monthly_rate) ^ tenure_months) /
      (((1 + monthly_rate) ^ tenure_months) - 1))

/-- Inverse of the EMI formula, from `calculate_max_loan_for_emi` in
agents/underwriting_agent.py: maximum principal for a target EMI, rounded to
the nearest whole unit (zero-rate branch unrounded). -/
def calculate_max_loan_for_emi (max_emi annual_rate : ℚ) (tenure_months : ℤ) : ℚ :=
  if annual_rate = 0 then max_emi * (tenure_months : ℚ)
  else
    let monthly_rate := annual_rate / (12 * 100)
    round0 (max_emi * (((1 + monthly_rate) ^ tenure_months) - 1) /
      (monthly_rate * ((1 + monthly_rate) ^ tenure_months)))

/-- `calculate_emi` lifted to PyFloat principals, with IEEE propagation of the
special values through the arithmetic (rate and tenure are always exact in
the program flows). -/
def emiF (principal : PyFloat) (annual_rate : ℚ) (tenure_months : ℤ) : PyFloat :=
  match principal with
  | .finite p => .finite (calculate_emi p annual_rate tenure_months)
  | .nan => .nan
  | .inf => .inf
  | .ninf => .ninf

/-- The `(emi / salary) * 100` expression of process_salary_verification,
lifted to PyFloat EMIs (only evaluated by the source under `salary > 0`). -/
def ratioF (emi : PyFloat) (salary : ℚ) : PyFloat :=
  match emi with
  | .finite e => .finite (e / salary * 100)
  | .nan => .nan
  | .inf => .inf
  | .ninf => .ninf

/-- Present-value annuity factor: the sum of the discount factors of the `n`
monthly payments at monthly rate `m`. The amortization formula of
`calculate_emi` is exactly principal divided by this factor. -/
def annuity (m : ℚ) (n : ℕ) : ℚ :=
  ∑ k ∈ Finset.range n, 1 / (1 + m) ^ (k + 1)

theorem annuity_succ (m : ℚ) (n : ℕ) :
    annuity m (n + 1) = annuity m n + 1 / (1 + m) ^ (n + 1) := by
  unfold annuity
  exact Finset.sum_range_succ _ n

theorem one_add_pos {m : ℚ} (hm : 0 < m) : (0 : ℚ) < 1 + m := by linarith

theorem annuity_eq (m : ℚ) (hm : 0 < m) (n : ℕ) :
    annuity m n = ((1 + m) ^ n - 1) / (m * (1 + m) ^ n) := by
  have hb : (0 : ℚ) < 1 + m := one_add_pos hm
  have hbne : (1 + m) ≠ 0 := ne_of_gt hb
  have hmne : m ≠ 0 := ne_of_gt hm
  induction n with
  | zero => simp [annuity]
  | succ k ih =>
    rw [annuity_succ, ih]
    have hpk : ((1 + m) : ℚ) ^ k ≠ 0 := pow_ne_zero k hbne
    have hpk1 : ((1 + m) : ℚ) ^ (k + 1) ≠ 0 := pow_ne_zero (k + 1) hbne
    field_simp
    ring

theorem annuity_le (m : ℚ) (hm : 0 ≤ m) (n : ℕ) : annuity m n ≤ (n : ℚ) := by
  have h : ∀ k ∈ Finset.range n, 1 / (1 + m) ^ (k + 1) ≤ 1 := by
    intro k _
    have hb : (1 : ℚ) ≤ 1 + m := by linarith
    have hp : (1 : ℚ) ≤ (1 + m) ^ (k + 1) := one_le_pow₀ hb
    rw [div_le_one (by linarith)]
    exact hp
  calc annuity m n ≤ ∑ _k ∈ Finset.range n, (1 : ℚ) := Finset.sum_le_sum h
    _ = (n : ℚ) := by simp

theorem annuity_pos (m : ℚ) (hm : 0 ≤ m) {n : ℕ} (hn : 1 ≤ n) : 0 < annuity m n := by
  have hb : (0 : ℚ) < 1 + m := by linarith
  apply Finset.sum_pos
  · intro k _
    positivity
  · exact Finset.nonempty_range_iff.mpr (by omega)

theorem annuity_anti {m1 m2 : ℚ} (h0 : 0 ≤ m1) (h12 : m1 ≤ m2) (n : ℕ) :
    annuity m2 n ≤ annuity m1 n := by
  apply Finset.sum_le_sum
  intro k _
  have hb1 : (0 : ℚ) < 1 + m1 := by linarith
  have hp1 : (0 : ℚ) < (1 + m1) ^ (k + 1) := pow_pos hb1 _
  have hple : (1 + m1) ^ (k + 1) ≤ (1 + m2) ^ (k + 1) :=
    pow_le_pow_left (by linarith) (by linarith) _
  exact one_div_le_one_div_of_le hp1 hple

theorem calculate_emi_eq_round2_annuity (a rate : ℚ) (n : ℕ)
    (hr : 0 < rate) (hn : 1 ≤ n) :
    calculate_emi a rate (n : ℤ) = round2 (a / annuity (rate / 1200) n) := by
  have hrne : rate ≠ 0 := ne_of_gt hr
  have hm : (0 : ℚ) < rate / 1200 := by positivity
  have hb : (0 : ℚ) < 1 + rate / 1200 := one_add_pos hm
  have hbne : (1 + rate / 1200 : ℚ) ≠ 0 := ne_of_gt hb
  have hpow_gt : (1 : ℚ) < (1 + rate / 1200) ^ n :=
    one_lt_pow (by linarith) (by omega)
  have hpow_ne : ((1 + rate / 1200 : ℚ) ^ n - 1) ≠ 0 := by linarith
  have hpw : ((1 + rate / 1200 : ℚ) ^ n) ≠ 0 := pow_ne_zero n hbne
  have hmne : rate / 1200 ≠ 0 := ne_of_gt hm
  unfold calculate_emi
  rw [if_neg hrne]
  simp only [show ((12 : ℚ) * 100) = 1200 from by norm_num, zpow_natCast]
  congr 1
  rw [annuity_eq _ hm]
  field_simp
  ring

theorem div_annuity_mul_ge (a : ℚ) (m : ℚ) {n : ℕ} (hm : 0 < m) (hn : 1 ≤ n)
    (ha : 0 ≤ a) : a ≤ a / annuity m n * (n : ℚ) := by
  have hS : 0 < annuity m n := annuity_pos m (le_of_lt hm) hn
  have hSn : annuity m n ≤ (n : ℚ) := annuity_le m (le_of_lt hm) n
  rw [div_mul_eq_mul_div, le_div_iff hS]
  calc a * annuity m n ≤ a * (n : ℚ) := by
        exact mul_le_mul_of_nonneg_left hSn ha
    _ = a * (n : ℚ) := rfl

theorem div_annuity_ge (a : ℚ) (m : ℚ) {n : ℕ} (hm : 0 < m) (hn : 1 ≤ n)
    (ha : 0 ≤ a) : a / (n : ℚ) ≤ a / annuity m n := by
  have hS : 0 < annuity m n := annuity_pos m (le_of_lt hm) hn
  have hSn : annuity m n ≤ (n : ℚ) := annuity_le m (le_of_lt hm) n
  exact div_le_div_of_nonneg_left ha hS hSn

theorem calculate_emi_ge (a rate : ℚ) (n : ℕ) (hr : 0 ≤ rate) (hn : 1 ≤ n)
    (ha : 0 ≤ a) : a / (n : ℚ) - 1 / 200 ≤ calculate_emi a rate (n : ℤ) := by
  rcases eq_or_lt_of_le hr with hz | hpos
  · unfold calculate_emi
    rw [if_pos hz.symm]
    push_cast
    linarith
  · rw [calculate_emi_eq_round2_annuity a rate n hpos hn]
    have h1 := round2_ge (a / annuity (rate / 1200) n)
    have h2 := div_annuity_ge a (rate / 1200) (by positivity) hn ha
    linarith

/-- Customer profile record from the external CRM lookup (data/customers.json),
with the fields the agents read. -/
structure Customer where
  id : String
  name : String
  city : String
  phone : String
  credit_score : ℚ
  preapproved_limit : ℚ
  salary : ℚ
deriving DecidableEq, Repr

/-- Pre-negotiated offer record from the external offers lookup
(data/offers.json). -/
structure Offer where
  customer_id : String
  interest_rate : ℚ
deriving DecidableEq, Repr

/-- Chat message identity: one constructor per distinct message the agents can
emit, carrying the numeric payloads interpolated into the source f-string.
Rendered text (number formatting, emoji) is presentation only. -/
inductive Msg where
  | salesOpening
  | badAmount
  | minAmount
  | maxAmount
  | tenurePrompt (amount : PyFloat)
  | badTenure
  | minTenure
  | maxTenure
  | loanSummary (amount : PyFloat) (tenure : ℤ) (rate : ℚ) (emi : PyFloat)
  | confirmReprompt
  | salesProceed
  | salesCancelled
  | verifOpening
  | badPhone
  | verifFound (name city phone : String)
  | verifNotFound
  | verifConfirmed
  | verifRetryPhone
  | verifConfirmReprompt
  | notFoundRetry
  | verifEnded
  | uwRejectedCredit (score : ℚ)
  | uwApproved (amount : PyFloat) (tenure : ℤ) (rate : ℚ) (emi : PyFloat) (limit : ℚ)
  | uwNeedsSalary (amount : PyFloat) (limit : ℚ)
  | uwRejectedMax (amount : PyFloat) (limit : ℚ)
  | svApproved (amount : PyFloat) (tenure : ℤ) (rate : ℚ) (emi : PyFloat) (ratioPct : PyFloat)
  | svRejected (emi : PyFloat) (salary : ℚ) (ratioPct : PyFloat) (maxLoan : ℚ)
  | uploadReminder
  | processingWait
  | completedMsg
  | endedMsg
  | fallbackError
  | sanctionMsg (payload : String)
  | emptyMsg
deriving DecidableEq, Repr

/-- The session dict of main.py / master_agent.py. Fields that the source may
leave absent from the dict are `Option`s; `none` means the key is absent and
`getD` models `session.get(key, default)`. -/
structure Session where
  current_agent : String
  conversation_stage : String
  sales_state : String
  verification_state : String
  underwriting_state : String
  loan_status : Option String
  kyc_verified : Bool
  loan_amount : Option PyFloat := none
  loan_tenure : Option ℤ := none
  interest_rate : Option ℚ := none
  estimated_emi : Option PyFloat := none
  calculated_emi : Option PyFloat := none
  customer : Option Customer := none
  customer_id : Option String := none
  offer : Option Offer := none
  approved_amount : Option PyFloat := none
  salary_slip_uploaded : Bool := false
  salary_slip_path : Option String := none
  sanction_letter_filename : Option String := none
  sanction_letter_path : Option String := none
deriving DecidableEq, Repr

/-- `get_initial_state` of master_agent.py. -/
def initialState : Session where
  current_agent := "greeting"
  conversation_stage := "start"
  sales_state := "ask_amount"
  verification_state := "ask_phone"
  underwriting_state := "pending"
  loan_status := none
  kyc_verified := false

/-- Response dict built by sales_agent.process. -/
structure SalesResp where
  message : Msg := .emptyMsg
  next_state : Option String := none
  proceed_to_verification : Bool := false
deriving DecidableEq, Repr

/-- Response dict built by verification_agent.process. -/
structure VerifResp where
  message : Msg := .emptyMsg
  next_state : Option String := none
  proceed_to_underwriting : Bool := false
deriving DecidableEq, Repr

/-- Response dict built by underwriting_agent.process and
process_salary_verification. -/
structure UwResp where
  decision : Option String := none
  reason : Option String := none
  message : Msg := .emptyMsg
  next_state : Option String := none
  show_upload : Bool := false
  proceed_to_sanction : Bool := false
deriving DecidableEq, Repr

/-- Response dict built by sanction_generator.generate_sanction_letter. -/
structure SanctionResp where
  success : Bool
  filename : String
  message : Msg
  show_download : Bool
deriving DecidableEq, Repr

/-- Aggregate per-turn response of master_agent (message concatenation is list
append, each element one agent message). -/
structure MasterResp where
  message : List Msg
  show_upload : Bool := false
  show_download : Bool := false
  download_file : Option String := none
  session_ended : Bool := false
deriving DecidableEq, Repr

/-- sales_agent.process: the intake stage machine
(ask_amount, ask_tenure, confirm). -/
def salesProcess (session : Session) (user_input : String) : Session × SalesResp :=
  let state := session.sales_state
  if state = "ask_amount" then
    match parsePyFloat (pyStrip (pyRemoveAll '₹' (pyRemoveAll ',' user_input))) with
    | none => (session, { message := .badAmount, next_state := some "ask_amount" })
    | some amount =>
      if pyLtF amount 10000 then
        (session, { message := .minAmount, next_state := some "ask_amount" })
      else if pyGtF amount 5000000 then
        (session, { message := .maxAmount, next_state := some "ask_amount" })
      else
        ({ session with loan_amount := some amount, sales_state := "ask_tenure" },
         { message := .tenurePrompt amount, next_state := some "ask_tenure" })
  else if state = "ask_tenure" then
    match parseIntPy user_input with
    | none => (session, { message := .badTenure, next_state := some "ask_tenure" })
    | some tenure =>
      if tenure < 12 then
        (session, { message := .minTenure, next_state := some "ask_tenure" })
      else if tenure > 72 then
        (session, { message := .maxTenure, next_state := some "ask_tenure" })
      else
        let loan_amount := session.loan_amount.getD (.finite 0)
        let interest_rate := session.interest_rate.getD (21/2)
        let emi := emiF loan_amount interest_rate tenure
        ({ session with loan_tenure := some tenure, estimated_emi := some emi,
                        sales_state := "confirm" },
         { message := .loanSummary loan_amount tenure interest_rate emi,
           next_state := some "confirm" })
  else if state = "confirm" then
    let user_response := pyStrip (pyLower user_input)
    if user_response ∈ (["yes", "y", "proceed", "ok", "sure", "yeah"] : List String) then
      ({ session with sales_state := "complete" },
       { message := .salesProceed, next_state := some "complete",
         proceed_to_verification := true })
    else if user_response ∈ (["no", "n", "cancel", "stop"] : List String) then
      ({ session with sales_state := "cancelled" },
       { message := .salesCancelled, next_state := some "cancelled" })
    else
      (session, { message := .confirmReprompt, next_state := some "confirm" })
  else
    (session, {})

/-- verification_agent.process: the identity-verification stage machine
(ask_phone, confirm_identity, not_found); the CRM and offers lookups are
oracle parameters. -/
def verifProcess (lookupPhone : String → Option Customer)
    (lookupOffer : String → Option Offer)
    (session : Session) (user_input : String) : Session × VerifResp :=
  let state := session.verification_state
  if state = "ask_phone" then
    let phone := pyRemoveAll '-' (pyRemoveAll ' ' (pyStrip user_input))
    if phone.length = 10 ∧ pyIsDigits phone then
      match lookupPhone phone with
      | some customer =>
        let s1 := { session with customer := some customer, customer_id := some customer.id }
        let s2 :=
          match lookupOffer customer.id with
          | some offer =>
            { s1 with offer := some offer, interest_rate := some offer.interest_rate }
          | none => s1
        ({ s2 with verification_state := "confirm_identity" },
         { message := .verifFound customer.name customer.city customer.phone,
           next_state := some "confirm_identity" })
      | none =>
        ({ session with verification_state := "not_found" },
         { message := .verifNotFound, next_state := some "not_found" })
    else
      (session, { message := .badPhone, next_state := some "ask_phone" })
  else if state = "confirm_identity" then
    let user_response := pyStrip (pyLower user_input)
    if user_response ∈ (["yes", "y", "correct", "right", "ok"] : List String) then
      ({ session with verification_state := "complete", kyc_verified := true },
       { message := .verifConfirmed, next_state := some "complete",
         proceed_to_underwriting := true })
    else if user_response ∈ (["no", "n", "wrong", "incorrect"] : List String) then
      ({ session with verification_state := "ask_phone", customer := none },
       { message := .verifRetryPhone, next_state := some "ask_phone" })
    else
      (session, { message := .verifConfirmReprompt, next_state := some "confirm_identity" })
  else if state = "not_found" then
    let user_response := pyStrip (pyLower user_input)
    if user_response ∈ (["yes", "y"] : List String) then
      ({ session with verification_state := "ask_phone" },
       { message := .notFoundRetry, next_state := some "ask_phone" })
    else
      ({ session with verification_state := "ended" },
       { message := .verifEnded, next_state := some "ended" })
  else
    (session, {})

/-- underwriting_agent.process: first-pass rule evaluator. The `user_input`
parameter exists in the source signature and is unused there too. -/
def uwProcess (session : Session) (user_input : Option String) : Session × UwResp :=
  let credit_score := (session.customer.map Customer.credit_score).getD 0
  let preapproved_limit := (session.customer.map Customer.preapproved_limit).getD 0
  let loan_amount := session.loan_amount.getD (.finite 0)
  let loan_tenure := session.loan_tenure.getD 12
  let interest_rate := session.interest_rate.getD (21/2)
  let emi := emiF loan_amount interest_rate loan_tenure
  let s1 := { session with calculated_emi := some emi }
  if credit_score < 700 then
    ({ s1 with underwriting_state := "rejected", loan_status := some "rejected" },
     { decision := some "rejected", reason := some "low_credit_score",
       message := .uwRejectedCredit credit_score, next_state := some "rejected" })
  else if pyLeF loan_amount preapproved_limit then
    ({ s1 with underwriting_state := "approved", loan_status := some "approved",
               approved_amount := some loan_amount },
     { decision := some "approved", reason := some "within_preapproved_limit",
       message := .uwApproved loan_amount loan_tenure interest_rate emi preapproved_limit,
       next_state := some "approved", proceed_to_sanction := true })
  else if pyLeF loan_amount (2 * preapproved_limit) then
    ({ s1 with underwriting_state := "awaiting_salary_slip",
               loan_status := some "pending_verification" },
     { decision := some "needs_salary_proof",
       reason := some "exceeds_preapproved_needs_verification",
       message := .uwNeedsSalary loan_amount preapproved_limit,
       next_state := some "awaiting_salary_slip", show_upload := true })
  else
    ({ s1 with underwriting_state := "rejected", loan_status := some "rejected" },
     { decision := some "rejected", reason := some "exceeds_maximum_limit",
       message := .uwRejectedMax loan_amount preapproved_limit,
       next_state := some "rejected" })

/-- underwriting_agent.process_salary_verification: the income-verification
variant, comparing the EMI against half the declared salary. The ratio
expression is guarded by `salary > 0`, so the division is never evaluated
with a zero divisor. -/
def processSalaryVerification (session : Session) (salary_uploaded : Bool) :
    Session × UwResp :=
  let salary := (session.customer.map Customer.salary).getD 0
  let loan_amount := session.loan_amount.getD (.finite 0)
  let loan_tenure := session.loan_tenure.getD 12
  let interest_rate := session.interest_rate.getD (21/2)
  let emi := emiF loan_amount interest_rate loan_tenure
  let emi_to_salary := if 0 < salary then ratioF emi salary else .finite 100
  if pyLeF emi (0.5 * salary) then
    ({ session with underwriting_state := "approved", loan_status := some "approved",
                    approved_amount := some loan_amount },
     { decision := some "approved", reason := some "salary_verified",
       message := .svApproved loan_amount loan_tenure interest_rate emi emi_to_salary,
       next_state := some "approved", proceed_to_sanction := true })
  else
    let max_emi := 0.5 * salary
    let max_loan := calculate_max_loan_for_emi max_emi interest_rate loan_tenure
    ({ session with underwriting_state := "rejected", loan_status := some "rejected" },
     { decision := some "rejected", reason := some "high_emi_ratio",
       message := .svRejected emi salary emi_to_salary max_loan,
       next_state := some "rejected" })

/-- Outcome of one call to the external document-issuance collaborator
(sanction_generator.generate_sanction_letter): either it throws, or it
produces a document with an externally chosen file name and message body
(the name embeds a wall-clock timestamp in the source). -/
inductive IssuanceResult where
  | fail
  | ok (filename : String) (payload : String)

/-- sanction_generator.generate_sanction_letter: on success it stores the
document reference into the session and reports a download; on failure the
exception propagates and the session is unchanged (the source writes the
session keys only after the PDF build succeeds). The PDF layout itself is an
external artifact with no orchestration logic. The stored path is modelled by
the file name (the uploads directory prefix is a deployment detail). -/
def sanctionGenerate (iss : IssuanceResult) (session : Session) :
    Except Session (Session × SanctionResp) :=
  match iss with
  | .fail => .error session
  | .ok fn payload =>
    .ok ({ session with sanction_letter_path := some fn,
                        sanction_letter_filename := some fn },
         { success := true, filename := fn, message := .sanctionMsg payload,
           show_download := true })

/-- master_agent.process_message: the session orchestrator for one ordinary
chat turn. `Except.error s` models an uncaught exception from the issuance
collaborator propagating out of the turn, with `s` the session as already
mutated in place before the raise. -/
def masterProcess (lookupPhone : String → Option Customer)
    (lookupOffer : String → Option Offer) (iss : IssuanceResult)
    (session : Session) (user_input : String) :
    Except Session (Session × MasterResp) :=
  let current_agent := session.current_agent
  if current_agent = "greeting" then
    .ok ({ session with current_agent := "sales",
                        conversation_stage := "collecting_loan_details" },
         { message := [.salesOpening] })
  else if current_agent = "sales" then
    let sp := salesProcess session user_input
    if sp.2.proceed_to_verification then
      .ok ({ sp.1 with current_agent := "verification",
                       conversation_stage := "verification" },
           { message := [sp.2.message, .verifOpening] })
    else if sp.2.next_state = some "cancelled" then
      .ok ({ sp.1 with current_agent := "ended" },
           { message := [sp.2.message], session_ended := true })
    else
      .ok (sp.1, { message := [sp.2.message] })
  else if current_agent = "verification" then
    let vp := verifProcess lookupPhone lookupOffer session user_input
    if vp.2.proceed_to_underwriting then
      let s2 := { vp.1 with current_agent := "underwriting",
                            conversation_stage := "underwriting" }
      let up := uwProcess s2 none
      if up.2.proceed_to_sanction then
        let s4 := { up.1 with current_agent := "sanction",
                              conversation_stage := "generating_sanction" }
        match sanctionGenerate iss s4 with
        | .error s5 => .error s5
        | .ok (s5, sanc) =>
          .ok ({ s5 with current_agent := "completed" },
               { message := [vp.2.message, up.2.message, sanc.message],
                 show_upload := up.2.show_upload,
                 show_download := sanc.show_download,
                 download_file := some sanc.filename })
      else if up.2.decision = some "rejected" then
        .ok ({ up.1 with current_agent := "ended" },
             { message := [vp.2.message, up.2.message],
               show_upload := up.2.show_upload, session_ended := true })
      else
        .ok (up.1, { message := [vp.2.message, up.2.message],
                     show_upload := up.2.show_upload })
    else if vp.2.next_state = some "ended" then
      .ok ({ vp.1 with current_agent := "ended" },
           { message := [vp.2.message], session_ended := true })
    else
      .ok (vp.1, { message := [vp.2.message] })
  else if current_agent = "underwriting" then
    if session.underwriting_state = "awaiting_salary_slip" then
      .ok (session, { message := [.uploadReminder], show_upload := true })
    else
      .ok (session, { message := [.processingWait] })
  else if current_agent = "completed" then
    .ok (session, { message := [.completedMsg], show_download := true,
                    download_file := session.sanction_letter_filename })
  else if current_agent = "ended" then
    .ok (session, { message := [.endedMsg], session_ended := true })
  else
    .ok (session, { message := [.fallbackError] })

/-- master_agent.process_salary_upload: the turn triggered by the
upload-completed event. -/
def processSalaryUpload (iss : IssuanceResult) (session : Session) :
    Except Session (Session × MasterResp) :=
  let up := processSalaryVerification session true
  if up.2.proceed_to_sanction then
    let s2 := { up.1 with current_agent := "sanction",
                          conversation_stage := "generating_sanction" }
    match sanctionGenerate iss s2 with
    | .error s3 => .error s3
    | .ok (s3, sanc) =>
      .ok ({ s3 with current_agent := "completed" },
           { message := [up.2.message, sanc.message],
             show_download := sanc.show_download,
             download_file := some sanc.filename })
  else if up.2.decision = some "rejected" then
    .ok ({ up.1 with current_agent := "ended" },
         { message := [up.2.message], session_ended := true })
  else
    .ok (up.1, { message := [up.2.message] })

/-- The /upload-salary endpoint of main.py: records the uploaded file into the
session (`fname` is the stored file path, chosen externally) and then runs
process_salary_upload. The endpoint checks only that the session exists. -/
def uploadTurn (iss : IssuanceResult) (fname : String) (session : Session) :
    Except Session (Session × MasterResp) :=
  processSalaryUpload iss
    { session with salary_slip_uploaded := true, salary_slip_path := some fname }

/-- Post-state of one chat turn (mutations persist also when the turn raises,
matching in-place dict mutation). -/
def chatStep (lookupPhone : String → Option Customer)
    (lookupOffer : String → Option Offer) (iss : IssuanceResult)
    (user_input : String) (session : Session) : Session :=
  match masterProcess lookupPhone lookupOffer iss session user_input with
  | .ok (s, _) => s
  | .error s => s

/-- Post-state of one upload-event turn. -/
def uploadStep (iss : IssuanceResult) (fname : String) (session : Session) : Session :=
  match uploadTurn iss fname session with
  | .ok (s, _) => s
  | .error s => s

/-- Session states reachable through the HTTP surface of main.py as
implemented: chat turns with arbitrary inputs and collaborator behaviours,
and upload events at any stage (the /upload-salary endpoint checks only that
the session exists). -/
inductive ReachableAny : Session → Prop where
  | init : ReachableAny initialState
  | chat {s : Session} (h : ReachableAny s)
      (lookupPhone : String → Option Customer)
      (lookupOffer : String → Option Offer)
      (iss : IssuanceResult) (user_input : String) :
      ReachableAny (chatStep lookupPhone lookupOffer iss user_input s)
  | upload {s : Session} (h : ReachableAny s)
      (iss : IssuanceResult) (fname : String) :
      ReachableAny (uploadStep iss fname s)

/-- Session states reachable when the environment honours the interface
contract of spec section 6: the upload-completed event is delivered only
while the session is in the underwriting waiting sub-state. -/
inductive ReachableSpec : Session → Prop where
  | init : ReachableSpec initialState
  | chat {s : Session} (h : ReachableSpec s)
      (lookupPhone : String → Option Customer)
      (lookupOffer : String → Option Offer)
      (iss : IssuanceResult) (user_input : String) :
      ReachableSpec (chatStep lookupPhone lookupOffer iss user_input s)
  | upload {s : Session} (h : ReachableSpec s)
      (hs : s.current_agent = "underwriting")
      (hw : s.underwriting_state = "awaiting_salary_slip")
      (iss : IssuanceResult) (fname : String) :
      ReachableSpec (uploadStep iss fname s)

theorem salesProcess_frame (s : Session) (i : String) :
    (salesProcess s i).1.loan_status = s.loan_status ∧
    (salesProcess s i).1.approved_amount = s.approved_amount ∧
    (salesProcess s i).1.current_agent = s.current_agent ∧
    (salesProcess s i).1.underwriting_state = s.underwriting_state := by
  unfold salesProcess
  rcases hp : parsePyFloat (pyStrip (pyRemoveAll '₹' (pyRemoveAll ',' i))) with _ | a <;>
  rcases ht : parseIntPy i with _ | t <;>
  simp only [hp, ht] <;> split_ifs <;> simp

theorem verifProcess_frame (lp : String → Option Customer) (lo : String → Option Offer)
    (s : Session) (i : String) :
    (verifProcess lp lo s i).1.loan_status = s.loan_status ∧
    (verifProcess lp lo s i).1.approved_amount = s.approved_amount ∧
    (verifProcess lp lo s i).1.current_agent = s.current_agent ∧
    (verifProcess lp lo s i).1.underwriting_state = s.underwriting_state ∧
    (verifProcess lp lo s i).1.loan_amount = s.loan_amount := by
  unfold verifProcess
  rcases hc : lp (pyRemoveAll '-' (pyRemoveAll ' ' (pyStrip i))) with _ | c
  · simp only [hc]; split_ifs <;> simp
  · rcases ho : lo c.id with _ | o <;>
    simp only [hc, ho] <;> split_ifs <;> simp
theorem uwProcess_post (s : Session) (u : Option String) :
    (uwProcess s u).1.loan_amount = s.loan_amount ∧
    (uwProcess s u).1.current_agent = s.current_agent ∧
    ((uwProcess s u).2.proceed_to_sanction = true →
      (uwProcess s u).1.loan_status = some "approved" ∧
      (uwProcess s u).1.underwriting_state = "approved" ∧
      (uwProcess s u).1.approved_amount = some (s.loan_amount.getD (.finite 0))) ∧
    ((uwProcess s u).2.proceed_to_sanction = false →
      (uwProcess s u).1.approved_amount = s.approved_amount ∧
      (uwProcess s u).1.loan_status ≠ some "approved") := by
  unfold uwProcess
  dsimp only
  split_ifs <;> simp

theorem svProcess_post (s : Session) (b : Bool) :
    (processSalaryVerification s b).1.loan_amount = s.loan_amount ∧
    (processSalaryVerification s b).1.current_agent = s.current_agent ∧
    (processSalaryVerification s b).1.customer = s.customer ∧
    (processSalaryVerification s b).1.loan_tenure = s.loan_tenure ∧
    (processSalaryVerification s b).1.interest_rate = s.interest_rate ∧
    ((processSalaryVerification s b).2.proceed_to_sanction = true →
      (processSalaryVerification s b).1.loan_status = some "approved" ∧
      (processSalaryVerification s b).1.underwriting_state = "approved" ∧
      (processSalaryVerification s b).1.approved_amount =
        some (s.loan_amount.getD (.finite 0))) ∧
    ((processSalaryVerification s b).2.proceed_to_sanction = false →
      (processSalaryVerification s b).1.approved_amount = s.approved_amount ∧
      (processSalaryVerification s b).1.loan_status = some "rejected" ∧
      (processSalaryVerification s b).2.decision = some "rejected") := by
  unfold processSalaryVerification
  dsimp only
  split_ifs <;> simp

/-- Session invariant relating the committed underwriting decision and the
approved-amount field (spec section 3). -/
def InvC6 (s : Session) : Prop :=
  (s.loan_status = some "approved" ↔ s.approved_amount ≠ none) ∧
  (s.approved_amount ≠ none →
    (s.current_agent = "sanction" ∨ s.current_agent = "completed") ∧
    s.approved_amount = some (s.loan_amount.getD (.finite 0)))

theorem invC6_of_none {s : Session} (hnone : s.approved_amount = none)
    (hls : s.loan_status ≠ some "approved") : InvC6 s := by
  constructor
  · exact ⟨fun hl => absurd hl hls, fun hn => absurd hnone hn⟩
  · intro hne; exact absurd hnone hne

theorem invC6_of_approved {s : Session}
    (hls : s.loan_status = some "approved")
    (hc : s.current_agent = "sanction" ∨ s.current_agent = "completed")
    (hv : s.approved_amount = some (s.loan_amount.getD (.finite 0))) : InvC6 s := by
  refine ⟨⟨fun _ => ?_, fun _ => hls⟩, fun _ => ⟨hc, hv⟩⟩
  rw [hv]
  exact fun hx => Option.noConfusion hx

theorem invC6_chatStep {s : Session} (h : InvC6 s)
    (lp : String → Option Customer) (lo : String → Option Offer)
    (iss : IssuanceResult) (inp : String) : InvC6 (chatStep lp lo iss inp s) := by
  obtain ⟨hiff, himp⟩ := h
  by_cases hap : s.approved_amount = none
  · have hls : s.loan_status ≠ some "approved" := fun hl => (hiff.mp hl) hap
    unfold chatStep masterProcess
    dsimp only
    by_cases hg : s.current_agent = "greeting"
    · rw [if_pos hg]; dsimp only
      exact invC6_of_none hap hls
    · rw [if_neg hg]
      by_cases hsal : s.current_agent = "sales"
      · rw [if_pos hsal]
        obtain ⟨f1, f2, f3, f4⟩ := salesProcess_frame s inp
        by_cases hb : (salesProcess s inp).2.proceed_to_verification = true
        · rw [if_pos hb]; dsimp only
          exact invC6_of_none (f2.trans hap) (fun hl => hls (f1.symm.trans hl))
        · rw [if_neg hb]
          by_cases hcanc : (salesProcess s inp).2.next_state = some "cancelled"
          · rw [if_pos hcanc]; dsimp only
            exact invC6_of_none (f2.trans hap) (fun hl => hls (f1.symm.trans hl))
          · rw [if_neg hcanc]; dsimp only
            exact invC6_of_none (f2.trans hap) (fun hl => hls (f1.symm.trans hl))
      · rw [if_neg hsal]
        by_cases hver : s.current_agent = "verification"
        · rw [if_pos hver]
          obtain ⟨g1, g2, g3, g4, g5⟩ := verifProcess_frame lp lo s inp
          by_cases hpu : (verifProcess lp lo s inp).2.proceed_to_underwriting = true
          · rw [if_pos hpu]
            obtain ⟨u1, u2, u3, u4⟩ := uwProcess_post
              { (verifProcess lp lo s inp).1 with current_agent := "underwriting", conversation_stage := "underwriting" } none
            by_cases hps : (uwProcess
                { (verifProcess lp lo s inp).1 with current_agent := "underwriting", conversation_stage := "underwriting" } none).2.proceed_to_sanction = true
            · rw [if_pos hps]
              obtain ⟨w1, w2, w3⟩ := u3 hps
              have hval : (uwProcess
                  { (verifProcess lp lo s inp).1 with current_agent := "underwriting", conversation_stage := "underwriting" } none).1.approved_amount =
                  some ((uwProcess
                  { (verifProcess lp lo s inp).1 with current_agent := "underwriting", conversation_stage := "underwriting" } none).1.loan_amount.getD
                    (PyFloat.finite 0)) :=
                w3.trans (congrArg (fun z => some (z.getD (PyFloat.finite 0))) u1.symm)
              cases iss with
              | fail =>
                dsimp only [sanctionGenerate]
                exact invC6_of_approved w1 (Or.inl rfl) hval
              | ok fn payload =>
                dsimp only [sanctionGenerate]
                exact invC6_of_approved w1 (Or.inr rfl) hval
            · have hps2 : (uwProcess
                  { (verifProcess lp lo s inp).1 with current_agent := "underwriting", conversation_stage := "underwriting" } none).2.proceed_to_sanction = false := by
                revert hps
                cases (uwProcess
                  { (verifProcess lp lo s inp).1 with current_agent := "underwriting", conversation_stage := "underwriting" } none).2.proceed_to_sanction <;> simp
              rw [if_neg hps]
              obtain ⟨x1, x2⟩ := u4 hps2
              by_cases hdec : (uwProcess
                  { (verifProcess lp lo s inp).1 with current_agent := "underwriting", conversation_stage := "underwriting" } none).2.decision = some "rejected"
              · rw [if_pos hdec]; dsimp only
                exact invC6_of_none (x1.trans (g2.trans hap)) x2
              · rw [if_neg hdec]; dsimp only
                exact invC6_of_none (x1.trans (g2.trans hap)) x2
          · rw [if_neg hpu]
            by_cases hend : (verifProcess lp lo s inp).2.next_state = some "ended"
            · rw [if_pos hend]; dsimp only
              exact invC6_of_none (g2.trans hap) (fun hl => hls (g1.symm.trans hl))
            · rw [if_neg hend]; dsimp only
              exact invC6_of_none (g2.trans hap) (fun hl => hls (g1.symm.trans hl))
        · rw [if_neg hver]
          by_cases hund : s.current_agent = "underwriting"
          · rw [if_pos hund]
            by_cases hw : s.underwriting_state = "awaiting_salary_slip"
            · rw [if_pos hw]; dsimp only; exact ⟨hiff, himp⟩
            · rw [if_neg hw]; dsimp only; exact ⟨hiff, himp⟩
          · rw [if_neg hund]
            by_cases hcomp : s.current_agent = "completed"
            · rw [if_pos hcomp]; dsimp only; exact ⟨hiff, himp⟩
            · rw [if_neg hcomp]
              by_cases hend2 : s.current_agent = "ended"
              · rw [if_pos hend2]; dsimp only; exact ⟨hiff, himp⟩
              · rw [if_neg hend2]; dsimp only; exact ⟨hiff, himp⟩
  · obtain ⟨hcur, hval⟩ := himp hap
    unfold chatStep masterProcess
    dsimp only
    have hg : ¬ s.current_agent = "greeting" := by
      rcases hcur with h' | h' <;> rw [h'] <;> simp
    have hsal : ¬ s.current_agent = "sales" := by
      rcases hcur with h' | h' <;> rw [h'] <;> simp
    have hver : ¬ s.current_agent = "verification" := by
      rcases hcur with h' | h' <;> rw [h'] <;> simp
    have hund : ¬ s.current_agent = "underwriting" := by
      rcases hcur with h' | h' <;> rw [h'] <;> simp
    rw [if_neg hg, if_neg hsal, if_neg hver, if_neg hund]
    by_cases hcomp : s.current_agent = "completed"
    · rw [if_pos hcomp]; dsimp only; exact ⟨hiff, himp⟩
    · rw [if_neg hcomp]
      by_cases hend2 : s.current_agent = "ended"
      · rw [if_pos hend2]; dsimp only; exact ⟨hiff, himp⟩
      · rw [if_neg hend2]; dsimp only; exact ⟨hiff, himp⟩

theorem invC6_uploadStep {s : Session} (h : InvC6 s)
    (hs : s.current_agent = "underwriting") (iss : IssuanceResult) (fname : String) :
    InvC6 (uploadStep iss fname s) := by
  obtain ⟨hiff, himp⟩ := h
  have hap : s.approved_amount = none := by
    by_contra hne
    rcases (himp hne).1 with h' | h' <;> rw [hs] at h' <;> simp at h'
  have hls : s.loan_status ≠ some "approved" := fun hl => (hiff.mp hl) hap
  unfold uploadStep uploadTurn processSalaryUpload
  dsimp only
  obtain ⟨v1, v2, vc, vt, vr, v3, v4⟩ := svProcess_post
    { s with salary_slip_uploaded := true, salary_slip_path := some fname } true
  by_cases hps : (processSalaryVerification
      { s with salary_slip_uploaded := true, salary_slip_path := some fname }
      true).2.proceed_to_sanction = true
  · rw [if_pos hps]
    obtain ⟨w1, w2, w3⟩ := v3 hps
    have hval : (processSalaryVerification
        { s with salary_slip_uploaded := true, salary_slip_path := some fname }
        true).1.approved_amount =
        some ((processSalaryVerification
        { s with salary_slip_uploaded := true, salary_slip_path := some fname }
        true).1.loan_amount.getD (PyFloat.finite 0)) :=
      w3.trans (congrArg (fun z => some (z.getD (PyFloat.finite 0))) v1.symm)
    cases iss with
    | fail =>
      dsimp only [sanctionGenerate]
      exact invC6_of_approved w1 (Or.inl rfl) hval
    | ok fn payload =>
      dsimp only [sanctionGenerate]
      exact invC6_of_approved w1 (Or.inr rfl) hval
  · have hps2 : (processSalaryVerification
        { s with salary_slip_uploaded := true, salary_slip_path := some fname }
        true).2.proceed_to_sanction = false := by
      revert hps
      cases (processSalaryVerification
        { s with salary_slip_uploaded := true, salary_slip_path := some fname }
        true).2.proceed_to_sanction <;> simp
    rw [if_neg hps]
    obtain ⟨x1, x2, x3⟩ := v4 hps2
    have hls2 : (processSalaryVerification
        { s with salary_slip_uploaded := true, salary_slip_path := some fname }
        true).1.loan_status ≠ some "approved" := by
      rw [x2]; simp
    by_cases hdec : (processSalaryVerification
        { s with salary_slip_uploaded := true, salary_slip_path := some fname }
        true).2.decision = some "rejected"
    · rw [if_pos hdec]; dsimp only
      exact invC6_of_none (x1.trans hap) hls2
    · rw [if_neg hdec]; dsimp only
      exact invC6_of_none (x1.trans hap) hls2

/-- All sessions reachable under the spec-section-6 delivery contract satisfy
the decision/approved-amount invariant. -/
theorem reachableSpec_inv {s : Session} (h : ReachableSpec s) : InvC6 s := by
  induction h with
  | init =>
    refine invC6_of_none rfl ?_
    intro hx
    exact Option.noConfusion hx
  | chat h lp lo iss inp ih => exact invC6_chatStep ih lp lo iss inp
  | upload h hs hw iss fname ih => exact invC6_uploadStep ih hs iss fname

/-- Underwriting input session: profile facts plus collected loan parameters,
as bound by the orchestrator before the evaluator runs. -/
def mkUwSession (credit_score preapproved_limit salary loan_amount : ℚ)
    (loan_tenure : ℤ) (interest_rate : ℚ) : Session :=
  { initialState with
      current_agent := "underwriting"
      customer := some { id := "C1", name := "N", city := "CT", phone := "9999999999",
                         credit_score := credit_score,
                         preapproved_limit := preapproved_limit, salary := salary }
      loan_amount := some (.finite loan_amount)
      loan_tenure := some loan_tenure
      interest_rate := some interest_rate }

/-- C1. The first-pass rule evaluator is total and applies its four rules in
priority order with the first match winning: for every combination of credit
score, loan amount, pre-approved limit and salary (salary is not consulted in
the first pass), the response is exactly one of the four (decision, reason)
outcomes, each holding exactly under its guard; in particular a credit score
below 700 always yields rejected/low_credit_score regardless of amount and
limit. -/
theorem c1_rule_evaluator_total (cs pl sal la : ℚ) (t : ℤ) (rate : ℚ) :
    (((uwProcess (mkUwSession cs pl sal la t rate) none).2.decision,
      (uwProcess (mkUwSession cs pl sal la t rate) none).2.reason) =
        (some "rejected", some "low_credit_score") ↔ cs < 700) ∧
    (((uwProcess (mkUwSession cs pl sal la t rate) none).2.decision,
      (uwProcess (mkUwSession cs pl sal la t rate) none).2.reason) =
        (some "approved", some "within_preapproved_limit") ↔ (700 ≤ cs ∧ la ≤ pl)) ∧
    (((uwProcess (mkUwSession cs pl sal la t rate) none).2.decision,
      (uwProcess (mkUwSession cs pl sal la t rate) none).2.reason) =
        (some "needs_salary_proof", some "exceeds_preapproved_needs_verification") ↔
          (700 ≤ cs ∧ pl < la ∧ la ≤ 2 * pl)) ∧
    (((uwProcess (mkUwSession cs pl sal la t rate) none).2.decision,
      (uwProcess (mkUwSession cs pl sal la t rate) none).2.reason) =
        (some "rejected", some "exceeds_maximum_limit") ↔ (700 ≤ cs ∧ pl < la ∧ 2 * pl < la)) ∧
    ((uwProcess (mkUwSession cs pl sal la t rate) none).2.decision,
      (uwProcess (mkUwSession cs pl sal la t rate) none).2.reason) ∈
        [(some "rejected", some "low_credit_score"),
         (some "approved", some "within_preapproved_limit"),
         (some "needs_salary_proof", some "exceeds_preapproved_needs_verification"),
         (some "rejected", some "exceeds_maximum_limit")] := by
  unfold uwProcess mkUwSession
  dsimp only
  simp only [Option.map_some, Option.getD_some, pyLeF, decide_eq_true_eq]
  split_ifs with h1 h2 h3 <;> refine ⟨?_, ?_, ?_, ?_, ?_⟩ <;> simp_all

/-- Payment function as worded by the claim and spec section 4.1: the standard
amortizing formula with r = annualRatePercent/1200, the zero-rate straight
line, and the result rounded to 2 decimal places in every case. -/
def specComputePayment (principal annualRatePercent : ℚ) (termMonths : ℤ) : ℚ :=
  if annualRatePercent = 0 then round2 (principal / (termMonths : ℚ))
  else
    let r := annualRatePercent / 1200
    round2 (principal * r * ((1 + r) ^ termMonths) / (((1 + r) ^ termMonths) - 1))

/-- C4 counterexample: at principal 100, rate 0, term 3 the code returns the
unrounded quotient 100/3, which differs from the 2-decimal rounding 33.33
required by the claim's "in every case the result is rounded". -/
theorem c4_counterexample :
    calculate_emi 100 0 3 = 100 / 3 ∧
    specComputePayment 100 0 3 = 3333 / 100 ∧
    ¬ ((100 : ℚ) / 3 = 3333 / 100) := by
  refine ⟨by norm_num [calculate_emi], by with_unfolding_all rfl, by norm_num⟩

/-- C4 amended: the zero-rate branch returns the exact unrounded quotient
principal/termMonths; for every nonzero rate the code computes exactly the
claim's rounded amortization formula. -/
theorem c4_payment_formula :
    (∀ (a : ℚ) (t : ℤ), calculate_emi a 0 t = a / (t : ℚ)) ∧
    (∀ (a rate : ℚ) (t : ℤ), rate ≠ 0 →
      calculate_emi a rate t = specComputePayment a rate t) := by
  constructor
  · intro a t
    simp [calculate_emi]
  · intro a rate t h
    simp only [calculate_emi, specComputePayment, if_neg h]
    norm_num

/-- Witness for C4 amended at concrete inputs. -/
theorem c4_payment_formula_witness :
    calculate_emi 100 0 8 = 100 / 8 ∧
    ((21 : ℚ) / 2 ≠ 0 ∧
      calculate_emi 300000 (21/2) 24 = specComputePayment 300000 (21/2) 24) :=
  ⟨c4_payment_formula.1 100 8,
   by norm_num, c4_payment_formula.2 300000 (21/2) 24 (by norm_num)⟩

/-- C9 counterexample: at principal 100.0098, annual rate 0.001 percent and
term 2 the rounded payment is 50.00, and 50.00 x 2 = 100.00 falls short of
the principal: rounding to 2 decimals can lose up to 0.005 per payment. -/
theorem c9_counterexample :
    (0 : ℚ) < 500049/5000 ∧ (0 : ℚ) < 1/1000 ∧ (0 : ℤ) < 2 ∧
    calculate_emi (500049/5000) (1/1000) 2 * 2 < 500049/5000 := by
  have h : calculate_emi (500049/5000) (1/1000) 2 = 50 := by with_unfolding_all rfl
  refine ⟨by norm_num, by norm_num, by norm_num, ?_⟩
  rw [h]
  norm_num

/-- C9 amended: for positive principal, rate and term, the unrounded payment
times the term covers the principal exactly; the rounded payment times the
term covers it up to the rounding loss of at most 0.005 per instalment; and
the payment is monotone (non-decreasing) in the rate. -/
theorem c9_payment_bounds (a rate : ℚ) (n : ℕ) (ha : 0 < a) (hr : 0 < rate)
    (hn : 1 ≤ n) :
    a ≤ a / annuity (rate / 1200) n * (n : ℚ) ∧
    a - (n : ℚ) / 200 ≤ calculate_emi a rate (n : ℤ) * (n : ℚ) ∧
    ∀ rate2, rate < rate2 →
      calculate_emi a rate (n : ℤ) ≤ calculate_emi a rate2 (n : ℤ) := by
  have hm : (0:ℚ) < rate / 1200 := by positivity
  refine ⟨div_annuity_mul_ge a (rate/1200) hm hn (le_of_lt ha), ?_, ?_⟩
  · rw [calculate_emi_eq_round2_annuity a rate n hr hn]
    have h1 := round2_ge (a / annuity (rate / 1200) n)
    have h2 := div_annuity_mul_ge a (rate/1200) hm hn (le_of_lt ha)
    have hn0 : (0:ℚ) ≤ (n:ℚ) := Nat.cast_nonneg n
    have h3 := mul_le_mul_of_nonneg_right h1 hn0
    nlinarith
  · intro rate2 hlt
    have hr2 : (0:ℚ) < rate2 := lt_trans hr hlt
    have hm2 : (0:ℚ) < rate2 / 1200 := by positivity
    rw [calculate_emi_eq_round2_annuity a rate n hr hn,
        calculate_emi_eq_round2_annuity a rate2 n hr2 hn]
    apply round2_mono
    have hanti := annuity_anti (le_of_lt hm) (by linarith : rate/1200 ≤ rate2/1200) n
    have hS2 := annuity_pos (rate2/1200) (le_of_lt hm2) hn
    exact div_le_div_of_nonneg_left (le_of_lt ha) hS2 hanti

/-- Witness for the C9 amended bounds at a concrete loan. -/
theorem c9_payment_bounds_witness :
    (0:ℚ) < 100000 ∧ (0:ℚ) < 21/2 ∧ 1 ≤ 12 ∧
    (100000 - ((12:ℕ):ℚ) / 200 ≤
      calculate_emi 100000 (21/2) ((12:ℕ):ℤ) * ((12:ℕ):ℚ)) ∧
    calculate_emi 100000 (21/2) ((12:ℕ):ℤ) ≤ calculate_emi 100000 11 ((12:ℕ):ℤ) := by
  have h := c9_payment_bounds 100000 (21/2) 12 (by norm_num) (by norm_num) (by norm_num)
  exact ⟨by norm_num, by norm_num, by norm_num, h.2.1, h.2.2 11 (by norm_num)⟩

theorem max_loan_eq_round0_annuity (e rate : ℚ) (n : ℕ) (hr : 0 < rate) :
    calculate_max_loan_for_emi e rate (n : ℤ) = round0 (e * annuity (rate / 1200) n) := by
  have hrne : rate ≠ 0 := ne_of_gt hr
  have hm : (0:ℚ) < rate/1200 := by positivity
  have hb : (0:ℚ) < 1 + rate/1200 := one_add_pos hm
  have hbne := ne_of_gt hb
  have hpw : ((1 + rate/1200 : ℚ) ^ n) ≠ 0 := pow_ne_zero n hbne
  have hmne : rate / 1200 ≠ 0 := ne_of_gt hm
  unfold calculate_max_loan_for_emi
  rw [if_neg hrne]
  simp only [show ((12:ℚ)*100) = 1200 from by norm_num, zpow_natCast]
  congr 1
  rw [annuity_eq _ hm]
  field_simp
  ring

/-- C8. Round-trip of the financial calculator: for positive rate and term,
feeding the computed payment back into the inverse recovers the principal up
to the tolerance from rounding the payment to 2 decimals (at most 0.005
amplified by at most the term) plus the half-unit rounding of the principal. -/
theorem c8_roundtrip (a rate : ℚ) (n : ℕ) (hr : 0 < rate) (hn : 1 ≤ n) :
    |calculate_max_loan_for_emi (calculate_emi a rate (n : ℤ)) rate (n : ℤ) - a| ≤
      (n : ℚ) / 200 + 1/2 := by
  have hm : (0:ℚ) < rate/1200 := by positivity
  have hS := annuity_pos (rate/1200) (le_of_lt hm) hn
  have hSn := annuity_le (rate/1200) (le_of_lt hm) n
  rw [calculate_emi_eq_round2_annuity a rate n hr hn,
      max_loan_eq_round0_annuity _ rate n hr]
  have he1 : a / annuity (rate/1200) n - 1/200 ≤ round2 (a / annuity (rate/1200) n) :=
    round2_ge _
  have he2 : round2 (a / annuity (rate/1200) n) ≤ a / annuity (rate/1200) n + 1/200 :=
    round2_le _
  have hdiv : a / annuity (rate/1200) n * annuity (rate/1200) n = a :=
    div_mul_cancel₀ a (ne_of_gt hS)
  have hes : |round2 (a / annuity (rate/1200) n) * annuity (rate/1200) n - a| ≤
      annuity (rate/1200) n / 200 := by
    rw [abs_le]
    constructor
    · have h3 := mul_le_mul_of_nonneg_right he1 hS.le
      nlinarith
    · have h4 := mul_le_mul_of_nonneg_right he2 hS.le
      nlinarith
  have hr0 := round0_sub_abs (round2 (a / annuity (rate/1200) n) * annuity (rate/1200) n)
  calc |round0 (round2 (a / annuity (rate/1200) n) * annuity (rate/1200) n) - a|
      ≤ |round0 (round2 (a / annuity (rate/1200) n) * annuity (rate/1200) n) -
          round2 (a / annuity (rate/1200) n) * annuity (rate/1200) n| +
        |round2 (a / annuity (rate/1200) n) * annuity (rate/1200) n - a| :=
        abs_sub_le _ _ _
    _ ≤ 1/2 + annuity (rate/1200) n / 200 := add_le_add hr0 hes
    _ ≤ (n:ℚ)/200 + 1/2 := by linarith

/-- Witness for the C8 round-trip at a concrete loan. -/
theorem c8_roundtrip_witness :
    (0:ℚ) < 21/2 ∧ 1 ≤ 24 ∧
    |calculate_max_loan_for_emi (calculate_emi 300000 (21/2) ((24:ℕ):ℤ)) (21/2)
        ((24:ℕ):ℤ) - 300000| ≤ ((24:ℕ):ℚ)/200 + 1/2 :=
  ⟨by norm_num, by norm_num, c8_roundtrip 300000 (21/2) 24 (by norm_num) (by norm_num)⟩

/-- C5. With a bound profile whose declared salary is non-positive, and loan
parameters inside their domain bounds (so the computed payment is positive),
the income-verification variant always rejects with reason high_emi_ratio;
the salary-ratio guard makes the ratio 100 (the division by salary is behind
a `salary > 0` test, so a zero divisor is never evaluated). -/
theorem c5_nonpositive_salary_rejects (c : Customer) (s : Session) (la : ℚ)
    (t : ℤ) (rate : ℚ) (upl : Bool)
    (hc : s.customer = some c) (hsal : c.salary ≤ 0)
    (hla : s.loan_amount = some (.finite la)) (hla1 : 10000 ≤ la) (hla2 : la ≤ 5000000)
    (ht : s.loan_tenure = some t) (ht1 : 12 ≤ t) (ht2 : t ≤ 72)
    (hr : s.interest_rate = some rate) (hr0 : 0 ≤ rate) :
    (processSalaryVerification s upl).2.decision = some "rejected" ∧
    (processSalaryVerification s upl).2.reason = some "high_emi_ratio" ∧
    (processSalaryVerification s upl).2.message =
      .svRejected (.finite (calculate_emi la rate t)) c.salary (.finite 100)
        (calculate_max_loan_for_emi (0.5 * c.salary) rate t) := by
  obtain ⟨n, hnt⟩ : ∃ n : ℕ, t = (n:ℤ) := ⟨t.toNat, by omega⟩
  have hn1 : 1 ≤ n := by omega
  have hnq : ((n:ℤ):ℚ) = (n:ℚ) := by push_cast; ring
  have hn72 : (n:ℚ) ≤ 72 := by
    have : (n:ℤ) ≤ 72 := by omega
    exact_mod_cast this
  have hnpos : (0:ℚ) < (n:ℚ) := by
    have : (0:ℤ) < (n:ℤ) := by omega
    exact_mod_cast this
  have hemi : 10000 / (72:ℚ) - 1/200 ≤ calculate_emi la rate t := by
    rw [hnt]
    have hge := calculate_emi_ge la rate n hr0 hn1 (by linarith)
    have hfrac : 10000 / (72:ℚ) ≤ la / (n:ℚ) := by
      rw [div_le_div_iff (by norm_num) hnpos]
      nlinarith
    linarith
  have hemipos : 0 < calculate_emi la rate t := by
    have hcst : (0:ℚ) < 10000 / 72 - 1/200 := by norm_num
    linarith
  have hle : pyLeF (.finite (calculate_emi la rate t)) (0.5 * c.salary) = false := by
    simp only [pyLeF, decide_eq_false_iff_not, not_le]
    nlinarith
  unfold processSalaryVerification
  dsimp only
  rw [hc, hla, ht, hr]
  simp only [Option.map_some', Option.getD_some, emiF, hle, Bool.false_eq_true,
    if_false, if_neg (not_lt.mpr hsal)]
  exact ⟨trivial, trivial, trivial⟩

def custZeroSalary : Customer :=
  { id := "C1", name := "N", city := "CT", phone := "9999999999",
    credit_score := 750, preapproved_limit := 500000, salary := 0 }

def sC5 : Session :=
  { initialState with
      current_agent := "underwriting"
      underwriting_state := "awaiting_salary_slip"
      customer := some custZeroSalary
      loan_amount := some (.finite 12000)
      loan_tenure := some 12
      interest_rate := some (21/2) }

/-- Witness for C5 at a concrete zero-salary session. -/
theorem c5_nonpositive_salary_rejects_witness :
    sC5.customer = some custZeroSalary ∧ custZeroSalary.salary ≤ 0 ∧
    (processSalaryVerification sC5 true).2.decision = some "rejected" ∧
    (processSalaryVerification sC5 true).2.reason = some "high_emi_ratio" ∧
    (processSalaryVerification sC5 true).2.message =
      .svRejected (.finite (calculate_emi 12000 (21/2) 12)) custZeroSalary.salary
        (.finite 100) (calculate_max_loan_for_emi (0.5 * custZeroSalary.salary) (21/2) 12) := by
  have h := c5_nonpositive_salary_rejects custZeroSalary sC5 12000 12 (21/2) true
    rfl (by norm_num [custZeroSalary]) rfl (by norm_num) (by norm_num)
    rfl (by norm_num) (by norm_num) rfl (by norm_num)
  exact ⟨rfl, by norm_num [custZeroSalary], h.1, h.2.1, h.2.2⟩

/-- C3 failing input: in ask_amount the input "nan" parses to the float NaN;
both range comparisons (NaN < 10000, NaN > 5000000) are false, so the machine
stores NaN as the loan amount and advances to ask_tenure, even though NaN is
not a finite value in [10000, 5000000]. -/
theorem c3_nan_accepted :
    (salesProcess initialState "nan").1.sales_state = "ask_tenure" ∧
    (salesProcess initialState "nan").1.loan_amount = some PyFloat.nan ∧
    ∀ q : ℚ, PyFloat.nan ≠ PyFloat.finite q := by
  refine ⟨by with_unfolding_all rfl, by with_unfolding_all rfl, fun q h => ?_⟩
  exact PyFloat.noConfusion h

/-- C10. The greeting turn ignores the user input and every collaborator: any
two inputs produce the identical response (the fixed intake opening message,
no upload/download/ended flags) and the identical updated session, with the
stage advanced to the intake (sales) stage. -/
theorem c10_greeting_input_independent (s : Session)
    (lp lp2 : String → Option Customer) (lo lo2 : String → Option Offer)
    (iss iss2 : IssuanceResult) (i1 i2 : String)
    (h : s.current_agent = "greeting") :
    masterProcess lp lo iss s i1 = masterProcess lp2 lo2 iss2 s i2 ∧
    masterProcess lp lo iss s i1 =
      .ok ({ s with current_agent := "sales"
                    conversation_stage := "collecting_loan_details" },
           { message := [.salesOpening], show_upload := false, show_download := false,
             download_file := none, session_ended := false }) := by
  refine ⟨?_, ?_⟩
  · unfold masterProcess; dsimp only; rw [if_pos h, if_pos h]
  · unfold masterProcess; dsimp only; rw [if_pos h]

/-- Witness for C10 at the initial session with two different inputs. -/
theorem c10_greeting_input_independent_witness :
    initialState.current_agent = "greeting" ∧
    masterProcess (fun _ => none) (fun _ => none) IssuanceResult.fail initialState "hello" =
      masterProcess (fun _ => none) (fun _ => none) (IssuanceResult.ok "f.pdf" "p") initialState
        "completely different input" ∧
    masterProcess (fun _ => none) (fun _ => none) IssuanceResult.fail initialState "hello" =
      .ok ({ initialState with current_agent := "sales", conversation_stage := "collecting_loan_details" },
           { message := [.salesOpening], show_upload := false, show_download := false,
             download_file := none, session_ended := false }) := by
  have h := c10_greeting_input_independent initialState (fun _ => none) (fun _ => none)
    (fun _ => none) (fun _ => none) IssuanceResult.fail (IssuanceResult.ok "f.pdf" "p") "hello"
    "completely different input" rfl
  exact ⟨rfl, h.1, h.2⟩

/-- Reference customer profile used by the concrete scenarios: good credit,
a 500000 pre-approved limit, and a low declared salary. -/
def custD : Customer :=
  { id := "C1", name := "Asha", city := "Pune", phone := "9876543210",
    credit_score := 750, preapproved_limit := 500000, salary := 100 }

/-- Customer lookup oracle that never finds a profile. -/
def lpNone : String → Option Customer := fun _ => none

/-- Offer lookup oracle that never finds an offer. -/
def loNone : String → Option Offer := fun _ => none

/-- Session sitting in confirm_identity with a bound profile, bound identifier
and offer-derived data. -/
def sC7 : Session :=
  { initialState with
      current_agent := "verification"
      verification_state := "confirm_identity"
      customer := some custD
      customer_id := some "C1"
      offer := some { customer_id := "C1", interest_rate := 9 }
      interest_rate := some 9 }

/-- C7 counterexample: on the negative answer "no" in confirm_identity the
machine returns to ask_phone and removes the customer profile, but the bound
identifier (customer_id) and the offer-derived data (offer, overridden
interest rate) are NOT cleared, contradicting the claim that the identifier
and all data derived from the profile are cleared. -/
theorem c7_counterexample :
    (verifProcess lpNone loNone sC7 "no").1.customer = none ∧
    (verifProcess lpNone loNone sC7 "no").1.verification_state = "ask_phone" ∧
    (verifProcess lpNone loNone sC7 "no").1.customer_id = some "C1" ∧
    (verifProcess lpNone loNone sC7 "no").1.offer =
      some { customer_id := "C1", interest_rate := 9 } ∧
    (verifProcess lpNone loNone sC7 "no").1.interest_rate = some 9 := by
  refine ⟨?_, ?_, ?_, ?_, ?_⟩ <;> with_unfolding_all rfl

/-- C7 amended: for every input in the negative set (case-insensitive,
whitespace-stripped) in confirm_identity, the machine returns to ask_phone
and removes exactly the customer profile object; every other session field,
including customer_id, offer and interest_rate, is left unchanged. -/
theorem c7_negative_confirmation (s : Session) (lp : String → Option Customer)
    (lo : String → Option Offer) (input : String)
    (h1 : s.verification_state = "confirm_identity")
    (h2 : pyStrip (pyLower input) ∈ (["no", "n", "wrong", "incorrect"] : List String)) :
    verifProcess lp lo s input =
      ({ s with verification_state := "ask_phone", customer := none },
       { message := .verifRetryPhone, next_state := some "ask_phone",
         proceed_to_underwriting := false }) := by
  have h2d : pyStrip (pyLower input) = "no" ∨ pyStrip (pyLower input) = "n" ∨
      pyStrip (pyLower input) = "wrong" ∨ pyStrip (pyLower input) = "incorrect" := by
    simpa using h2
  have haff : pyStrip (pyLower input) ∉
      (["yes", "y", "correct", "right", "ok"] : List String) := by
    rcases h2d with h | h | h | h <;> rw [h] <;> decide
  unfold verifProcess
  dsimp only
  rw [h1]
  rw [if_neg (by decide : ¬ ("confirm_identity" : String) = "ask_phone")]
  rw [if_pos (rfl : ("confirm_identity" : String) = "confirm_identity")]
  rw [if_neg haff, if_pos h2]

/-- Witness for C7 amended at the concrete session and input "No ". -/
theorem c7_negative_confirmation_witness :
    sC7.verification_state = "confirm_identity" ∧
    pyStrip (pyLower "No ") ∈ (["no", "n", "wrong", "incorrect"] : List String) ∧
    verifProcess lpNone loNone sC7 "No " =
      ({ sC7 with verification_state := "ask_phone", customer := none },
       { message := .verifRetryPhone, next_state := some "ask_phone",
         proceed_to_underwriting := false }) := by
  refine ⟨rfl, by decide, ?_⟩
  exact c7_negative_confirmation sC7 lpNone loNone "No " rfl (by decide)

/-- Session about to confirm identity, with loan parameters collected and a
profile that auto-approves (amount within the pre-approved limit). -/
def sC2 : Session :=
  { initialState with
      current_agent := "verification"
      verification_state := "confirm_identity"
      customer := some custD
      customer_id := some "C1"
      loan_amount := some (.finite 12000)
      loan_tenure := some 12 }

/-- Session state left behind when the issuance collaborator throws during the
approval turn on `sC2`: the decision is committed and the stage was already
moved to "sanction" before the call. -/
def sErrC2 : Session :=
  { sC2 with
      verification_state := "complete"
      kyc_verified := true
      conversation_stage := "generating_sanction"
      current_agent := "sanction"
      calculated_emi := some (emiF (.finite 12000) (21/2) 12)
      underwriting_state := "approved"
      loan_status := some "approved"
      approved_amount := some (.finite 12000) }

/-- C2 counterexample: when the issuance collaborator throws during the
approval turn, the turn produces no response at all (the exception
propagates); in particular it does not report a generic failure outcome. -/
theorem c2_counterexample :
    masterProcess lpNone loNone IssuanceResult.fail sC2 "yes" = .error sErrC2 ∧
    ∀ (s' : Session) (r : MasterResp),
      masterProcess lpNone loNone IssuanceResult.fail sC2 "yes" ≠ .ok (s', r) := by
  have h : masterProcess lpNone loNone IssuanceResult.fail sC2 "yes" = .error sErrC2 := by
    with_unfolding_all rfl
  refine ⟨h, fun s' r hc => ?_⟩
  rw [h] at hc
  exact Except.noConfusion hc

/-- Ordinary message turns on a session stranded in the internal "sanction"
stage hit the fallback branch of the orchestrator: the session is returned
unchanged together with the generic apologetic message. -/
theorem masterProcess_sanction_fallback (lp : String → Option Customer)
    (lo : String → Option Offer) (iss : IssuanceResult) (s : Session)
    (hs : s.current_agent = "sanction") (user_input : String) :
    masterProcess lp lo iss s user_input =
      .ok (s, { message := [.fallbackError], show_upload := false,
                show_download := false, download_file := none,
                session_ended := false }) := by
  unfold masterProcess
  dsimp only
  rw [hs,
    if_neg (by decide : ¬ ("sanction" : String) = "greeting"),
    if_neg (by decide : ¬ ("sanction" : String) = "sales"),
    if_neg (by decide : ¬ ("sanction" : String) = "verification"),
    if_neg (by decide : ¬ ("sanction" : String) = "underwriting"),
    if_neg (by decide : ¬ ("sanction" : String) = "completed"),
    if_neg (by decide : ¬ ("sanction" : String) = "ended")]

/-- The income-check condition of process_salary_verification, as a function
of the session fields the check reads (profile salary and the collected loan
parameters); no field written by a failed issuance turn occurs in it. -/
def svCondition (s : Session) : Bool :=
  pyLeF (emiF (s.loan_amount.getD (.finite 0)) (s.interest_rate.getD (21/2))
      (s.loan_tenure.getD 12))
    (0.5 * ((Option.map Customer.salary s.customer).getD 0))

theorem svProceed_iff (s : Session) (b : Bool) :
    (processSalaryVerification s b).2.proceed_to_sanction = svCondition s := by
  unfold processSalaryVerification svCondition
  dsimp only
  split_ifs <;> simp_all

/-- An upload-event turn on a session whose income check passes re-derives
the approval: whatever the issuance outcome of the retried turn, the
post-state carries the approved decision with the approved amount equal to
the session's loan amount. -/
theorem uploadStep_approves (iss : IssuanceResult) (fname : String) (s : Session)
    (hc : svCondition s = true) :
    (uploadStep iss fname s).loan_status = some "approved" ∧
    (uploadStep iss fname s).approved_amount =
      some ((uploadStep iss fname s).loan_amount.getD (.finite 0)) := by
  have hc1 : svCondition { s with salary_slip_uploaded := true, salary_slip_path := some fname } = true := by
    unfold svCondition at hc ⊢
    dsimp only
    exact hc
  have hps := (svProceed_iff { s with salary_slip_uploaded := true, salary_slip_path := some fname } true).trans hc1
  obtain ⟨v1, v2, vc, vt, vr, v3, v4⟩ := svProcess_post
    { s with salary_slip_uploaded := true, salary_slip_path := some fname } true
  obtain ⟨w1, w2, w3⟩ := v3 hps
  unfold uploadStep uploadTurn processSalaryUpload
  dsimp only
  rw [if_pos hps]
  cases iss with
  | fail =>
    dsimp only [sanctionGenerate]
    exact ⟨w1, w3.trans (congrArg (fun z => some (z.getD (PyFloat.finite 0))) v1.symm)⟩
  | ok fn payload =>
    dsimp only [sanctionGenerate]
    exact ⟨w1, w3.trans (congrArg (fun z => some (z.getD (PyFloat.finite 0))) v1.symm)⟩

/-- C2 amended: whenever a turn that reached an approval decision — an
ordinary chat turn (first-pass approval) or an upload-event turn
(salary-verified approval) — raises out of the failing issuance collaborator,
the escaped session is exactly the session at the start of the collaborator
call: the stage already moved to "sanction" and the committed decision
(loan_status, underwriting_state, approved_amount = requested amount) intact.
Retrying the same turn is safe with respect to that committed decision: a
retried chat turn returns the escaped session unchanged with the generic
fallback message, and a retried upload turn re-derives the same approval, so
the committed decision fields survive whatever the issuance outcome. -/
theorem c2_issuance_failure_state :
    (∀ (lp : String → Option Customer) (lo : String → Option Offer)
       (s s' : Session) (user_input : String),
      masterProcess lp lo IssuanceResult.fail s user_input = .error s' →
        s'.current_agent = "sanction" ∧
        s'.loan_status = some "approved" ∧
        s'.underwriting_state = "approved" ∧
        s'.approved_amount = some (s'.loan_amount.getD (.finite 0)) ∧
        ∀ (iss2 : IssuanceResult) (input2 : String),
          masterProcess lp lo iss2 s' input2 =
            .ok (s', { message := [.fallbackError], show_upload := false,
                       show_download := false, download_file := none,
                       session_ended := false })) ∧
    (∀ (s s' : Session) (fname : String),
      uploadTurn IssuanceResult.fail fname s = .error s' →
        s'.current_agent = "sanction" ∧
        s'.loan_status = some "approved" ∧
        s'.underwriting_state = "approved" ∧
        s'.approved_amount = some (s'.loan_amount.getD (.finite 0)) ∧
        (∀ (lp : String → Option Customer) (lo : String → Option Offer)
           (iss2 : IssuanceResult) (input2 : String),
          masterProcess lp lo iss2 s' input2 =
            .ok (s', { message := [.fallbackError], show_upload := false,
                       show_download := false, download_file := none,
                       session_ended := false })) ∧
        (∀ (iss2 : IssuanceResult) (fname2 : String),
          (uploadStep iss2 fname2 s').loan_status = some "approved" ∧
          (uploadStep iss2 fname2 s').approved_amount =
            some ((uploadStep iss2 fname2 s').loan_amount.getD (.finite 0)))) := by
  constructor
  · intro lp lo s s' user_input h
    unfold masterProcess at h
    dsimp only at h
    by_cases hg : s.current_agent = "greeting"
    · rw [if_pos hg] at h; exact Except.noConfusion h
    · rw [if_neg hg] at h
      by_cases hsal2 : s.current_agent = "sales"
      · rw [if_pos hsal2] at h
        by_cases hb : (salesProcess s user_input).2.proceed_to_verification = true
        · rw [if_pos hb] at h; exact Except.noConfusion h
        · rw [if_neg hb] at h
          by_cases hcanc : (salesProcess s user_input).2.next_state = some "cancelled"
          · rw [if_pos hcanc] at h; exact Except.noConfusion h
          · rw [if_neg hcanc] at h; exact Except.noConfusion h
      · rw [if_neg hsal2] at h
        by_cases hver : s.current_agent = "verification"
        · rw [if_pos hver] at h
          by_cases hpu : (verifProcess lp lo s user_input).2.proceed_to_underwriting = true
          · rw [if_pos hpu] at h
            obtain ⟨u1, u2, u3, u4⟩ := uwProcess_post
              { (verifProcess lp lo s user_input).1 with current_agent := "underwriting", conversation_stage := "underwriting" } none
            by_cases hps : (uwProcess { (verifProcess lp lo s user_input).1 with current_agent := "underwriting", conversation_stage := "underwriting" } none).2.proceed_to_sanction = true
            · rw [if_pos hps] at h
              dsimp only [sanctionGenerate] at h
              obtain ⟨w1, w2, w3⟩ := u3 hps
              injection h with h2
              subst h2
              refine ⟨rfl, w1, w2,
                w3.trans (congrArg (fun z => some (z.getD (PyFloat.finite 0))) u1.symm),
                ?_⟩
              intro iss2 input2
              exact masterProcess_sanction_fallback lp lo iss2 _ rfl input2
            · rw [if_neg hps] at h
              by_cases hdec : (uwProcess { (verifProcess lp lo s user_input).1 with current_agent := "underwriting", conversation_stage := "underwriting" } none).2.decision = some "rejected"
              · rw [if_pos hdec] at h; exact Except.noConfusion h
              · rw [if_neg hdec] at h; exact Except.noConfusion h
          · rw [if_neg hpu] at h
            by_cases hend : (verifProcess lp lo s user_input).2.next_state = some "ended"
            · rw [if_pos hend] at h; exact Except.noConfusion h
            · rw [if_neg hend] at h; exact Except.noConfusion h
        · rw [if_neg hver] at h
          by_cases hund : s.current_agent = "underwriting"
          · rw [if_pos hund] at h
            by_cases hw : s.underwriting_state = "awaiting_salary_slip"
            · rw [if_pos hw] at h; exact Except.noConfusion h
            · rw [if_neg hw] at h; exact Except.noConfusion h
          · rw [if_neg hund] at h
            by_cases hcomp : s.current_agent = "completed"
            · rw [if_pos hcomp] at h; exact Except.noConfusion h
            · rw [if_neg hcomp] at h
              by_cases hend2 : s.current_agent = "ended"
              · rw [if_pos hend2] at h; exact Except.noConfusion h
              · rw [if_neg hend2] at h; exact Except.noConfusion h
  · intro s s' fname h
    unfold uploadTurn processSalaryUpload at h
    dsimp only at h
    obtain ⟨v1, v2, vc, vt, vr, v3, v4⟩ := svProcess_post
      { s with salary_slip_uploaded := true, salary_slip_path := some fname } true
    by_cases hps : (processSalaryVerification { s with salary_slip_uploaded := true, salary_slip_path := some fname } true).2.proceed_to_sanction = true
    · rw [if_pos hps] at h
      dsimp only [sanctionGenerate] at h
      obtain ⟨w1, w2, w3⟩ := v3 hps
      injection h with h2
      subst h2
      have hcond1 : svCondition { s with salary_slip_uploaded := true, salary_slip_path := some fname } = true :=
        (svProceed_iff { s with salary_slip_uploaded := true, salary_slip_path := some fname } true).symm.trans hps
      have hconds : svCondition { (processSalaryVerification { s with salary_slip_uploaded := true, salary_slip_path := some fname } true).1 with current_agent := "sanction", conversation_stage := "generating_sanction" } = true := by
        unfold svCondition at hcond1 ⊢
        dsimp only at hcond1 ⊢
        rw [v1, vc, vt, vr]
        dsimp only
        exact hcond1
      refine ⟨rfl, w1, w2,
        w3.trans (congrArg (fun z => some (z.getD (PyFloat.finite 0))) v1.symm),
        ?_, ?_⟩
      · intro lp lo iss2 input2
        exact masterProcess_sanction_fallback lp lo iss2 _ rfl input2
      · intro iss2 fname2
        exact uploadStep_approves iss2 fname2 _ hconds
    · rw [if_neg hps] at h
      by_cases hdec : (processSalaryVerification { s with salary_slip_uploaded := true, salary_slip_path := some fname } true).2.decision = some "rejected"
      · rw [if_pos hdec] at h; exact Except.noConfusion h
      · rw [if_neg hdec] at h; exact Except.noConfusion h

/-- Profile whose declared salary passes the income check for the collected
amount, used by the concrete upload-failure scenario. -/
def custSal : Customer :=
  { id := "C1", name := "Asha", city := "Pune", phone := "9876543210",
    credit_score := 750, preapproved_limit := 500000, salary := 100000 }

/-- Session awaiting the salary slip before the upload-event approval turn. -/
def sC2u : Session :=
  { initialState with
      current_agent := "underwriting"
      conversation_stage := "underwriting"
      underwriting_state := "awaiting_salary_slip"
      loan_status := some "pending_verification"
      customer := some custSal
      customer_id := some "C1"
      loan_amount := some (.finite 12000)
      loan_tenure := some 12 }

/-- Session state left behind when the issuance collaborator throws during
the upload-event approval turn on `sC2u`. -/
def sErrC2u : Session :=
  { sC2u with
      salary_slip_uploaded := true
      salary_slip_path := some "slip.pdf"
      underwriting_state := "approved"
      loan_status := some "approved"
      approved_amount := some (.finite 12000)
      current_agent := "sanction"
      conversation_stage := "generating_sanction" }

/-- Witness for C2 amended: a concrete failing chat approval turn and a
concrete failing upload approval turn, each with its retry. -/
theorem c2_issuance_failure_state_witness :
    sErrC2.current_agent = "sanction" ∧ sErrC2.loan_status = some "approved" ∧
    sErrC2.approved_amount = some (sErrC2.loan_amount.getD (.finite 0)) ∧
    masterProcess lpNone loNone (IssuanceResult.ok "doc.pdf" "p") sErrC2 "retry" =
      .ok (sErrC2, { message := [.fallbackError], show_upload := false,
                     show_download := false, download_file := none,
                     session_ended := false }) ∧
    sErrC2u.current_agent = "sanction" ∧ sErrC2u.loan_status = some "approved" ∧
    (uploadStep (IssuanceResult.ok "doc.pdf" "p") "slip2.pdf" sErrC2u).loan_status =
      some "approved" ∧
    (uploadStep (IssuanceResult.ok "doc.pdf" "p") "slip2.pdf" sErrC2u).approved_amount =
      some ((uploadStep (IssuanceResult.ok "doc.pdf" "p") "slip2.pdf"
        sErrC2u).loan_amount.getD (.finite 0)) := by
  have hA := c2_issuance_failure_state.1 lpNone loNone sC2 sErrC2 "yes"
    (by with_unfolding_all rfl)
  have hB := c2_issuance_failure_state.2 sC2u sErrC2u "slip.pdf"
    (by with_unfolding_all rfl)
  have hBr := hB.2.2.2.2.2 (IssuanceResult.ok "doc.pdf" "p") "slip2.pdf"
  exact ⟨hA.1, hA.2.1, hA.2.2.2.1,
    hA.2.2.2.2 (IssuanceResult.ok "doc.pdf" "p") "retry",
    hB.1, hB.2.1, hBr.1, hBr.2⟩

/-- Issuance oracle that succeeds with a fixed document. -/
def issOkC6 : IssuanceResult := .ok "letter.pdf" "sanction"

/-- Customer lookup oracle backed by the reference profile. -/
def lpD : String → Option Customer :=
  fun p => if p = "9876543210" then some custD else none

/-- Concrete end state of the violating run: greet, collect 12000 over 12
months, verify, auto-approve and complete; then deliver a salary upload to
the completed session (main.py accepts it at any stage), which re-runs the
income check (EMI 1057.78 > half of salary 100) and flips the decision to
rejected while approved_amount stays set. -/
def vSessC6 : Session :=
  uploadStep issOkC6 "slip.pdf"
    (chatStep lpD loNone issOkC6 "yes"
      (chatStep lpD loNone issOkC6 "9876543210"
        (chatStep lpD loNone issOkC6 "yes"
          (chatStep lpD loNone issOkC6 "12"
            (chatStep lpD loNone issOkC6 "12000"
              (chatStep lpD loNone issOkC6 "hi" initialState))))))

/-- C6 counterexample: a session reachable through the implemented HTTP
surface in which approved_amount is set while the decision is not approved:
the upload endpoint performs no stage check, so a salary upload delivered to
an already-completed approved session re-runs income verification, rejects,
and leaves approved_amount populated. -/
theorem c6_counterexample :
    ReachableAny vSessC6 ∧
    vSessC6.approved_amount = some (.finite 12000) ∧
    vSessC6.loan_status = some "rejected" ∧
    ¬ (vSessC6.loan_status = some "approved" ↔ vSessC6.approved_amount ≠ none) := by
  have hap : vSessC6.approved_amount = some (.finite 12000) := by with_unfolding_all rfl
  have hls : vSessC6.loan_status = some "rejected" := by with_unfolding_all rfl
  refine ⟨?_, hap, hls, ?_⟩
  · exact ReachableAny.upload
      (ReachableAny.chat
        (ReachableAny.chat
          (ReachableAny.chat
            (ReachableAny.chat
              (ReachableAny.chat
                (ReachableAny.chat ReachableAny.init lpD loNone issOkC6 "hi")
                lpD loNone issOkC6 "12000")
              lpD loNone issOkC6 "12")
            lpD loNone issOkC6 "yes")
          lpD loNone issOkC6 "9876543210")
        lpD loNone issOkC6 "yes")
      issOkC6 "slip.pdf"
  · intro hiff
    have : vSessC6.loan_status = some "approved" := hiff.mpr (by rw [hap]; simp)
    rw [hls] at this
    exact absurd (Option.some.inj this) (by decide)

/-- C6 amended: in every session state reachable when upload-completed events
are delivered only in the underwriting waiting sub-state (the delivery
contract of spec section 6 — the implemented upload endpoint does not enforce
it), approved_amount is set iff the committed decision is approved, and when
set it equals the requested loan amount. Both approving evaluator paths set
it together with the approved decision, and no other operation writes it. -/
theorem c6_approved_amount_iff_approved (s : Session) (h : ReachableSpec s) :
    (s.loan_status = some "approved" ↔ s.approved_amount ≠ none) ∧
    (s.approved_amount ≠ none →
      s.approved_amount = some (s.loan_amount.getD (.finite 0))) := by
  have hi := reachableSpec_inv h
  exact ⟨hi.1, fun hne => (hi.2 hne).2⟩

/-- Witness for C6 amended at the initial session. -/
theorem c6_approved_amount_iff_approved_witness :
    ReachableSpec initialState ∧
    ((initialState.loan_status = some "approved" ↔
        initialState.approved_amount ≠ none) ∧
     (initialState.approved_amount ≠ none →
        initialState.approved_amount =
          some (initialState.loan_amount.getD (.finite 0)))) :=
  ⟨ReachableSpec.init, c6_approved_amount_iff_approved initialState ReachableSpec.init⟩
